import Mathlib

/-!
# Verification of the VehicleInsurance training pipeline

A shallow embedding of the artifact-driven ML pipeline
(ingest → validate → transform → train → evaluate → push) and proofs of
its stage contracts.  DataFrames are modelled column-oriented as
association lists of named cell columns; fallible Python code becomes
`Except`; external collaborators (sklearn fit/predict, the S3 client,
the RNG behind the train/test shuffle) are passed in as explicit
parameters or outcome values.
-/

set_option maxRecDepth 4000

/-- Errors raised by pipeline code.  `custom` models `CustomException`
wrapping an arbitrary message, `keyError`/`valueError` model the pandas
exceptions escaping from column access and `astype(int)`. -/
inductive PErr where
  | keyError
  | valueError
  | custom (msg : String)
  | fileNotFound (path : String)
  deriving DecidableEq, Repr

/-- A cell of a pandas DataFrame: string, integer or boolean
(boolean cells arise from `pd.get_dummies`). -/
inductive Cell where
  | str (v : String)
  | int (v : Int)
  | bool (v : Bool)
  deriving DecidableEq, Repr

/-- A DataFrame, column-oriented: an ordered list of named columns. -/
abbrev DF := List (String × List Cell)

/-- `name in df.columns`. -/
def hasCol (df : DF) (name : String) : Bool :=
  df.any (fun c => c.1 == name)

/-- Column lookup, `df[name]`. -/
def getCol (df : DF) (name : String) : Option (List Cell) :=
  (df.find? (fun c => c.1 == name)).map (fun c => c.2)

/-- Column assignment, `df[name] = cells` (on an existing column). -/
def setCol (df : DF) (name : String) (cells : List Cell) : DF :=
  df.map (fun c => if c.1 == name then (c.1, cells) else c)

/-- `df['Gender'].map({'Female': 0, 'Male': 1}).astype(int)` on one
column: unmapped values become NaN and `astype(int)` then raises. -/
def mapGenderValues (cells : List Cell) : Except PErr (List Cell) :=
  cells.mapM (fun c =>
    match c with
    | Cell.str "Female" => Except.ok (Cell.int 0)
    | Cell.str "Male" => Except.ok (Cell.int 1)
    | _ => Except.error PErr.valueError)

/-- `DataTransformation._map_gender_column`: unconditional, raises
`KeyError` when the column is absent. -/
def mapGenderStrict (df : DF) : Except PErr DF :=
  match getCol df "Gender" with
  | none => Except.error PErr.keyError
  | some cells => do
      let mapped ← mapGenderValues cells
      Except.ok (setCol df "Gender" mapped)

/-- Evaluation's gender step: guarded by `if "Gender" in df.columns`. -/
def mapGenderIfPresent (df : DF) : Except PErr DF :=
  if hasCol df "Gender" then mapGenderStrict df else Except.ok df

/-- `if name in df.columns: df = df.drop(name, axis=1)`. -/
def dropColIfPresent (name : String) (df : DF) : DF :=
  df.filter (fun c => c.1 ≠ name)

def isStrCell : Cell → Bool
  | Cell.str _ => true
  | _ => false

def cellStr : Cell → Option String
  | Cell.str s => some s
  | _ => none

/-- A column has pandas object dtype (and is dummy-expanded) when it
holds string values. -/
def isObjectCol (cells : List Cell) : Bool :=
  cells.any isStrCell

/-- Sorted distinct categories of an object column, as
`pd.get_dummies` enumerates them. -/
def categories (cells : List Cell) : List String :=
  ((cells.filterMap cellStr).dedup).mergeSort (fun a b => a ≤ b)

/-- Indicator columns for one object column, first category dropped
(`drop_first=True`). -/
def dummyCols (name : String) (cells : List Cell) : List (String × List Cell) :=
  match categories cells with
  | [] => []
  | _ :: rest =>
      rest.map (fun cat =>
        (name ++ "_" ++ cat, cells.map (fun c => Cell.bool (cellStr c == some cat))))

/-- `pd.get_dummies(df, drop_first=True)`: non-object columns keep
their order, dummy columns are appended. -/
def get_dummies (df : DF) : DF :=
  (df.filter (fun c => !isObjectCol c.2))
    ++ (df.filter (fun c => isObjectCol c.2)).flatMap (fun c => dummyCols c.1 c.2)

/-- The rename dictionary shared by Transformation and Evaluation. -/
def renameMap (n : String) : String :=
  if n == "Vehicle_Age_< 1 Year" then "Vehicle_Age_lt_1_Year"
  else if n == "Vehicle_Age_> 2 Years" then "Vehicle_Age_gt_2_Years"
  else n

def renameColumns (df : DF) : DF :=
  df.map (fun c => (renameMap c.1, c.2))

/-- `astype(int)` on a single cell. -/
def castCellInt : Cell → Except PErr Cell
  | Cell.bool b => Except.ok (Cell.int (if b then 1 else 0))
  | Cell.int n => Except.ok (Cell.int n)
  | Cell.str _ => Except.error PErr.valueError

/-- `if col in df.columns: df[col] = df[col].astype(int)`. -/
def castColInt (df : DF) (name : String) : Except PErr DF :=
  if hasCol df name then
    df.mapM (fun c =>
      if c.1 == name then do
        let v ← c.2.mapM castCellInt
        Except.ok (c.1, v)
      else Except.ok c)
  else Except.ok df

/-- The three indicator columns cast to integer by both stages. -/
def intCastTargets : List String :=
  ["Vehicle_Age_lt_1_Year", "Vehicle_Age_gt_2_Years", "Vehicle_Damage_Yes"]

def castDummyInts (df : DF) : Except PErr DF :=
  intCastTargets.foldlM castColInt df

/-- Modelled from the spec: `config/schema.yaml` (absent from the
sources) declares the identifier column for
`DataTransformation._drop_id_column` to drop; §4.5 states Evaluation
applies the same steps, and Evaluation drops the document-store
identifier column `"_id"`, so the schema's `drop_columns` is `"_id"`. -/
def schema_drop_columns : String := "_id"

/-- `ModelEvaluation._preprocess_features`: guarded gender mapping,
drop `"_id"` if present, dummy expansion, renaming, integer casts. -/
def preprocess_features (df : DF) : Except PErr DF := do
  let df ← mapGenderIfPresent df
  let df := dropColIfPresent "_id" df
  let df := get_dummies df
  let df := renameColumns df
  castDummyInts df

/-- The sequence `_map_gender_column`, `_drop_id_column`,
`_create_dummy_columns`, `_rename_columns` applied by
`DataTransformation.initiate_data_transformation`. -/
def transformFeatureSequence (df : DF) : Except PErr DF := do
  let df ← mapGenderStrict df
  let df := dropColIfPresent schema_drop_columns df
  let df := get_dummies df
  let df := renameColumns df
  castDummyInts df

/-- A feature table without a `Gender` column: Evaluation's guarded
path leaves it alone, Transformation's unconditional mapping raises. -/
def dfNoGender : DF := [("Annual_Premium", [Cell.int 5])]

/-! ## Filesystem, side effects and artifacts -/

/-- The local filesystem holding the persisted CSV partitions: a path
either resolves to a table or is unreadable. -/
abbrev FileSys := String → Option DF

/-- Observable side effects performed by a stage, in order. -/
inductive Effect where
  | readCSV (path : String)
  | wroteReport (path : String) (status : Bool) (message : String)
  | savedObject (path : String)
  | savedArray (path : String)
  | appliedPreprocessing
  | predicted
  deriving DecidableEq, Repr

/-- Modelled from the spec (§3): artifact of Ingestion, the two
partition paths (`artifact_entity.py` is absent from the sources; field
names follow their uses in the stage code). -/
structure DataIngestionArtifact where
  trained_file_path : String
  test_file_path : String
  deriving DecidableEq, Repr

/-- Modelled from the spec (§3): Validation's verdict artifact. -/
structure DataValidationArtifact where
  validation_status : Bool
  message : String
  validation_report_file_path : String
  deriving DecidableEq, Repr

/-- Modelled from the spec (§3): Transformation's artifact. -/
structure DataTransformationArtifact where
  transformed_object_file_path : String
  transformed_train_file_path : String
  transformed_test_file_path : String
  deriving DecidableEq, Repr

/-- Modelled from the spec (§3): the four training metrics (F1,
precision, recall bundled; accuracy is only used by the gate). -/
structure ClassificationMetricArtifact where
  f1_score : ℚ
  precision_score : ℚ
  recall_score : ℚ
  deriving DecidableEq, Repr

/-- Modelled from the spec (§3): Training's artifact. -/
structure ModelTrainerArtifact where
  trained_model_file_path : String
  metric_artifact : ClassificationMetricArtifact
  deriving DecidableEq, Repr

/-- Modelled from the spec (§3): Evaluation's promotion decision. -/
structure ModelEvaluationArtifact where
  is_model_accepted : Bool
  s3_model_path : String
  trained_model_path : String
  changed_accuracy : ℚ
  deriving DecidableEq, Repr

/-- Modelled from the spec (§3): Promotion's terminal artifact. -/
structure ModelPusherArtifact where
  bucket_name : String
  s3_model_path : String
  deriving DecidableEq, Repr

/-! ## Data validation (`src/components/data_validation.py`) -/

/-- Modelled from the spec (§4.2): the declared schema resolved from
`config/schema.yaml` (absent from the sources): declared column list,
required numerical and categorical column names. -/
structure SchemaConfig where
  columns : List String
  numerical_columns : List String
  categorical_columns : List String

namespace DataValidation

/-- `DataValidation.validate_number_of_columns`: column count equals
the schema's declared count. -/
def validate_number_of_columns (s : SchemaConfig) (df : DF) : Bool :=
  s.columns.length == df.length

/-- `DataValidation.validate_column_existence`: no required numerical
or categorical column is missing. -/
def validate_column_existence (s : SchemaConfig) (df : DF) : Bool :=
  let missingNumerical := s.numerical_columns.filter (fun col => !hasCol df col)
  let missingCategorical := s.categorical_columns.filter (fun col => !hasCol df col)
  missingNumerical.isEmpty && missingCategorical.isEmpty

/-- `DataValidation.read_data`: `pd.read_csv`, raising (wrapped) when
the path is unreadable. -/
def read_data (fs : FileSys) (path : String) : Except PErr DF :=
  match fs path with
  | some df => Except.ok df
  | none => Except.error (PErr.fileNotFound path)

/-- The per-partition messages accumulated over
`{"Training": train_df, "Testing": test_df}`. -/
def partitionErrors (s : SchemaConfig) (label : String) (df : DF) : List String :=
  (if validate_number_of_columns s df then []
   else [label ++ " dataset has incorrect number of columns."])
    ++ (if validate_column_existence s df then []
        else [label ++ " dataset is missing required columns."])

/-- `DataValidation.initiate_data_validation`: reads both partitions,
aggregates check failures into one message list, writes the report and
returns the verdict as a value. -/
def initiate_data_validation (s : SchemaConfig) (fs : FileSys)
    (trainPath testPath reportPath : String) :
    Except PErr DataValidationArtifact × List Effect :=
  match fs trainPath with
  | none => (Except.error (PErr.fileNotFound trainPath), [])
  | some train_df =>
    match fs testPath with
    | none => (Except.error (PErr.fileNotFound testPath), [Effect.readCSV trainPath])
    | some test_df =>
      let validation_errors :=
        partitionErrors s "Training" train_df ++ partitionErrors s "Testing" test_df
      let validation_status := validation_errors.isEmpty
      let validation_message :=
        if validation_status then "No validation errors found."
        else String.intercalate " " validation_errors
      let artifact : DataValidationArtifact :=
        ⟨validation_status, validation_message, reportPath⟩
      (Except.ok artifact,
       [Effect.readCSV trainPath, Effect.readCSV testPath,
        Effect.wroteReport reportPath validation_status validation_message])

end DataValidation

/-! ## Data transformation (`src/components/data_transformation.py`)

The sklearn scaler (`ColumnTransformer`) and the imblearn `SMOTEENN`
resampler are external collaborators: they enter the embedding as
function parameters (`fitScaler`, the fitted transform it returns, and
`resample`). -/

namespace DataTransformation

/-- A numeric matrix row. -/
abbrev MatRow := List ℚ

/-- `DataTransformation.initiate_data_transformation`: hard gate on the
validation verdict, then read, target split, the §4.3 feature sequence,
scaling fit on train only, resampling of both partitions, and the three
persisted outputs.  Returns the artifact and the ordered effect
trace. -/
def initiate_data_transformation
    (data_validation_artifact : DataValidationArtifact)
    (fs : FileSys) (trainPath testPath targetCol : String)
    (objectPath trainOutPath testOutPath : String)
    (fitScaler : DF → (DF → List MatRow))
    (resample : List MatRow → List Cell → List MatRow × List Cell) :
    Except PErr DataTransformationArtifact × List Effect :=
  if data_validation_artifact.validation_status = false then
    (Except.error (PErr.custom data_validation_artifact.message), [])
  else
    match fs trainPath with
    | none => (Except.error (PErr.fileNotFound trainPath), [])
    | some train_df =>
      match fs testPath with
      | none => (Except.error (PErr.fileNotFound testPath), [Effect.readCSV trainPath])
      | some test_df =>
        match getCol train_df targetCol, getCol test_df targetCol with
        | some target_train, some target_test =>
          let input_train := dropColIfPresent targetCol train_df
          let input_test := dropColIfPresent targetCol test_df
          match transformFeatureSequence input_train,
                transformFeatureSequence input_test with
          | Except.ok train_feats, Except.ok test_feats =>
            let preprocessor := fitScaler train_feats
            let train_arr := preprocessor train_feats
            let test_arr := preprocessor test_feats
            let _trainFinal := resample train_arr target_train
            let _testFinal := resample test_arr target_test
            let artifact : DataTransformationArtifact :=
              ⟨objectPath, trainOutPath, testOutPath⟩
            (Except.ok artifact,
             [Effect.readCSV trainPath, Effect.readCSV testPath,
              Effect.savedObject objectPath,
              Effect.savedArray trainOutPath, Effect.savedArray testOutPath])
          | Except.error e, _ =>
            (Except.error e, [Effect.readCSV trainPath, Effect.readCSV testPath])
          | _, Except.error e =>
            (Except.error e, [Effect.readCSV trainPath, Effect.readCSV testPath])
        | _, _ =>
          (Except.error PErr.keyError,
           [Effect.readCSV trainPath, Effect.readCSV testPath])

end DataTransformation

/-! ## Model trainer (`src/components/model_trainer.py`)

The `RandomForestClassifier` is an external collaborator: the fitted
model's prediction function is the parameter `predictFn`.  A transformed
matrix row is represented as its feature part paired with its last
(target) column. -/

namespace ModelTrainer

/-- `sklearn.metrics.accuracy_score`: fraction of matching labels. -/
def accuracy_score (y ypred : List ℚ) : ℚ :=
  (((y.zip ypred).filter (fun p => p.1 == p.2)).length : ℚ) / (y.length : ℚ)

/-- `sklearn.metrics.f1_score` for binary labels with positive class 1. -/
def f1_score (y ypred : List ℚ) : ℚ :=
  let pairs := y.zip ypred
  let tp := ((pairs.filter (fun p => p.1 == 1 && p.2 == 1)).length : ℚ)
  let fp := ((pairs.filter (fun p => p.1 != 1 && p.2 == 1)).length : ℚ)
  let fn := ((pairs.filter (fun p => p.1 == 1 && p.2 != 1)).length : ℚ)
  if 2 * tp + fp + fn = 0 then 0 else 2 * tp / (2 * tp + fp + fn)

/-- `sklearn.metrics.precision_score`. -/
def precision_score (y ypred : List ℚ) : ℚ :=
  let pairs := y.zip ypred
  let tp := ((pairs.filter (fun p => p.1 == 1 && p.2 == 1)).length : ℚ)
  let fp := ((pairs.filter (fun p => p.1 != 1 && p.2 == 1)).length : ℚ)
  if tp + fp = 0 then 0 else tp / (tp + fp)

/-- `sklearn.metrics.recall_score`. -/
def recall_score (y ypred : List ℚ) : ℚ :=
  let pairs := y.zip ypred
  let tp := ((pairs.filter (fun p => p.1 == 1 && p.2 == 1)).length : ℚ)
  let fn := ((pairs.filter (fun p => p.1 == 1 && p.2 != 1)).length : ℚ)
  if tp + fn = 0 then 0 else tp / (tp + fn)

/-- Modelled from the spec (§4.4): trainer configuration holding the
acceptance threshold (`config_entity.py` is absent from the sources). -/
structure ModelTrainerConfig where
  expected_accuracy : ℚ
  trained_model_file_path : String

/-- `ModelTrainer.get_model_object_and_report`, metrics part: predict
on the held-out test matrix and compute the metric artifact (the fit
itself is the external `predictFn`). -/
def get_metric_artifact (predictFn : List ℚ → ℚ)
    (test : List (List ℚ × ℚ)) : ClassificationMetricArtifact :=
  let y_test := test.map (fun r => r.2)
  let y_pred := test.map (fun r => predictFn r.1)
  ⟨f1_score y_test y_pred, precision_score y_test y_pred, recall_score y_test y_pred⟩

/-- The accuracy recomputed on the train set itself by
`initiate_model_trainer`. -/
def trainAccuracy (predictFn : List ℚ → ℚ) (train : List (List ℚ × ℚ)) : ℚ :=
  accuracy_score (train.map (fun r => r.2)) (train.map (fun r => predictFn r.1))

/-- `ModelTrainer.initiate_model_trainer`: computes metrics, recomputes
accuracy on the train matrix and rejects the run when it falls below
the configured floor; only otherwise is a `ModelTrainerArtifact`
produced. -/
def initiate_model_trainer (train test : List (List ℚ × ℚ))
    (predictFn : List ℚ → ℚ) (cfg : ModelTrainerConfig) :
    Except PErr ModelTrainerArtifact :=
  let metric_artifact := get_metric_artifact predictFn test
  let train_accuracy := trainAccuracy predictFn train
  if train_accuracy < cfg.expected_accuracy then
    Except.error (PErr.custom "Trained model does not meet the required accuracy threshold.")
  else
    Except.ok ⟨cfg.trained_model_file_path, metric_artifact⟩

end ModelTrainer

/-! ## S3 estimator (`src/entity/s3_estimator.py`,
`src/cloud_storage/aws_storage.py`)

The boto3 key listing is an external collaborator; its outcome — the
key-existence boolean, or the exception message it raised — is the
parameter `outcome`. -/

namespace S3Estimator

/-- Outcome of the underlying boto3 `bucket.objects.filter` listing. -/
abbrev S3CheckOutcome := Except String Bool

/-- `SimpleStorageService.s3_key_path_available`: wraps any lower-level
failure in `CustomException` and re-raises. -/
def s3_key_path_available (outcome : S3CheckOutcome) : Except PErr Bool :=
  match outcome with
  | Except.ok b => Except.ok b
  | Except.error e => Except.error (PErr.custom e)

/-- `ProjEstimator.is_model_present`: calls `s3_key_path_available`
inside `try`, and on `CustomException` logs and returns `False`. -/
def is_model_present (outcome : S3CheckOutcome) : Except PErr Bool :=
  match s3_key_path_available outcome with
  | Except.ok b => Except.ok b
  | Except.error _ => Except.ok false

/-- `SimpleStorageService.upload_file` / `ProjEstimator.save_model`:
wraps any lower-level failure and re-raises. -/
def save_model (uploadOutcome : Except String Unit) : Except PErr Unit :=
  match uploadOutcome with
  | Except.ok _ => Except.ok ()
  | Except.error e => Except.error (PErr.custom ("Error saving model to S3: " ++ e))

/-- `ModelEvaluation.get_best_model`: returns the estimator when the
incumbent key is present, `none` otherwise; re-raises (wrapped) any
exception escaping `is_model_present`. -/
def get_best_model (outcome : S3CheckOutcome) : Except PErr (Option Unit) :=
  match is_model_present outcome with
  | Except.ok true => Except.ok (some ())
  | Except.ok false => Except.ok none
  | Except.error e => Except.error e

end S3Estimator

/-! ## Model evaluation (`src/components/model_evaluation.py`) -/

namespace ModelEvaluation

/-- A cell interpreted as a label integer (`astype`-style). -/
def cellInt : Cell → Except PErr Int
  | Cell.int n => Except.ok n
  | Cell.bool b => Except.ok (if b then 1 else 0)
  | Cell.str _ => Except.error PErr.valueError

/-- `sklearn.metrics.f1_score` on integer labels, positive class 1. -/
def f1_score (y yhat : List Int) : ℚ :=
  let pairs := y.zip yhat
  let tp := ((pairs.filter (fun p => p.1 == 1 && p.2 == 1)).length : ℚ)
  let fp := ((pairs.filter (fun p => p.1 != 1 && p.2 == 1)).length : ℚ)
  let fn := ((pairs.filter (fun p => p.1 == 1 && p.2 != 1)).length : ℚ)
  if 2 * tp + fp + fn = 0 then 0 else 2 * tp / (2 * tp + fp + fn)

/-- `best_model_f1_score or 0`: Python `or` falls through to `0` when
the left side is `None` — or the falsy float `0.0`. -/
def pyOrZero (x : Option ℚ) : ℚ :=
  match x with
  | none => 0
  | some v => if v = 0 then 0 else v

/-- `EvaluateModelResponse`. -/
structure EvaluateModelResponse where
  trained_model_f1_score : ℚ
  best_model_f1_score : Option ℚ
  is_model_accepted : Bool
  difference : ℚ
  deriving DecidableEq, Repr

/-- `ModelEvaluation.evaluate_model`: loads the raw test file, splits
off the target, preprocesses the features, takes the candidate F1 from
the trainer artifact (not recomputed), scores the incumbent — when
`get_best_model` found one — on the preprocessed test features, and
decides.  `best` is `get_best_model`'s result, with a found incumbent
carried as its prediction function. -/
def evaluate_model (fs : FileSys) (testPath targetCol : String)
    (model_trainer_artifact : ModelTrainerArtifact)
    (best : Option (DF → List Int)) :
    Except PErr EvaluateModelResponse :=
  match fs testPath with
  | none => Except.error (PErr.fileNotFound testPath)
  | some test_df =>
    match getCol test_df targetCol with
    | none => Except.error PErr.keyError
    | some ycells =>
      match ycells.mapM cellInt with
      | Except.error e => Except.error e
      | Except.ok y =>
        let X := dropColIfPresent targetCol test_df
        match preprocess_features X with
        | Except.error e => Except.error e
        | Except.ok Xp =>
          let trained_model_f1_score :=
            model_trainer_artifact.metric_artifact.f1_score
          let best_model_f1_score : Option ℚ :=
            best.map (fun pf => f1_score y (pf Xp))
          let tmp_best_model_score := pyOrZero best_model_f1_score
          let is_model_accepted :=
            decide (trained_model_f1_score > tmp_best_model_score)
          let difference := trained_model_f1_score - tmp_best_model_score
          Except.ok ⟨trained_model_f1_score, best_model_f1_score,
                     is_model_accepted, difference⟩

/-- `ModelEvaluation.initiate_model_evaluation`: packages the response
into the `ModelEvaluationArtifact`. -/
def initiate_model_evaluation (fs : FileSys) (testPath targetCol : String)
    (s3_model_key_path : String)
    (model_trainer_artifact : ModelTrainerArtifact)
    (best : Option (DF → List Int)) :
    Except PErr ModelEvaluationArtifact :=
  match evaluate_model fs testPath targetCol model_trainer_artifact best with
  | Except.error e => Except.error e
  | Except.ok r =>
    Except.ok ⟨r.is_model_accepted, s3_model_key_path,
               model_trainer_artifact.trained_model_file_path, r.difference⟩

end ModelEvaluation

/-! ## Deployed bundle prediction (`src/entity/estimator.py`,
`src/entity/s3_estimator.py`)

The fitted preprocessing pipeline and classifier inside a deployed
bundle are external collaborators (`transform`, `modelPredict`). -/

namespace Estimator

/-- `pd.DataFrame.empty`: no rows (or no columns at all). -/
def df_empty (df : DF) : Bool :=
  match df with
  | [] => true
  | c :: _ => c.2.isEmpty

/-- A deserialized `MyModel` bundle. -/
structure MyModel where
  transform : DF → List (List ℚ)
  modelPredict : List (List ℚ) → List Int

/-- `MyModel.predict`: rejects an empty input frame before applying any
preprocessing; otherwise transforms then predicts.  The raised
`ValueError` is wrapped into `CustomException` by the method's own
handler. -/
def MyModel.predict (m : MyModel) (df : DF) :
    Except PErr (List Int) × List Effect :=
  if df_empty df then
    (Except.error (PErr.custom "Input DataFrame is empty. Prediction aborted."), [])
  else
    let transformed_features := m.transform df
    (Except.ok (m.modelPredict transformed_features),
     [Effect.appliedPreprocessing, Effect.predicted])

/-- `ProjEstimator.predict`: ensures the bundle is loaded (`loadResult`
is the already-loaded model or the outcome of `load_model`), delegates
to `MyModel.predict` and wraps any failure. -/
def ProjEstimator.predict (loadResult : Except PErr MyModel) (df : DF) :
    Except PErr (List Int) × List Effect :=
  match loadResult with
  | Except.error _ => (Except.error (PErr.custom "Error during prediction"), [])
  | Except.ok m =>
    match m.predict df with
    | (Except.error _, tr) => (Except.error (PErr.custom "Error during prediction"), tr)
    | (Except.ok r, tr) => (Except.ok r, tr)

end Estimator

/-! ## Data ingestion (`src/components/data_ingestion.py`)

`sklearn.model_selection.train_test_split` shuffles with a
`random_state`-seeded RNG; the permutation that RNG produces is the
explicit parameter `perm`, so reproducibility for a fixed seed is
determinism in `perm`. -/

namespace DataIngestion

/-- `train_test_split(dataframe, test_size=ratio, random_state=42)`:
validates the float ratio, takes `n_test = ceil(ratio * n)` rows of the
shuffled order as the test partition and the remaining `n - n_test` as
the train partition; raises when either partition would be empty. -/
def train_test_split {α : Type} (perm : List Nat) (rows : List α) (ratio : ℚ) :
    Except PErr (List α × List α) :=
  let n := rows.length
  if 0 < ratio ∧ ratio < 1 then
    let nTest := Nat.ceil (ratio * (n : ℚ))
    let nTrain := n - nTest
    if nTrain = 0 ∨ nTest = 0 then
      Except.error (PErr.custom "With the given n_samples and test_size, the resulting train set will be empty.")
    else
      let shuffled := perm.filterMap (fun i => rows.get? i)
      Except.ok (shuffled.drop nTest, shuffled.take nTest)
  else
    Except.error (PErr.custom "test_size should be in the (0, 1) range")

end DataIngestion

/-! ## Pipeline orchestrator (`src/pipeline/training_pipeline.py`)

Each `start_*` stage of `TrainPipeline` is carried as the outcome it
produces for the artifacts it is given; `run_pipeline` sequences them
and reports, besides its own outcome, whether the Promotion stage
(model pusher) was invoked. -/

namespace TrainPipeline

/-- `TrainPipeline.run_pipeline`: runs the six stages in order, stops
normally (no error, no promotion) when the evaluation artifact is not
accepted, and invokes the pusher only otherwise.  The second component
records whether `start_model_pusher` was invoked. -/
def run_pipeline
    (startIngestion : Except PErr DataIngestionArtifact)
    (startValidation : DataIngestionArtifact → Except PErr DataValidationArtifact)
    (startTransformation : DataIngestionArtifact → DataValidationArtifact →
      Except PErr DataTransformationArtifact)
    (startTrainer : DataTransformationArtifact → Except PErr ModelTrainerArtifact)
    (startEvaluation : DataIngestionArtifact → ModelTrainerArtifact →
      Except PErr ModelEvaluationArtifact)
    (startPusher : ModelEvaluationArtifact → Except PErr ModelPusherArtifact) :
    Except PErr Unit × Bool :=
  match startIngestion with
  | Except.error e => (Except.error e, false)
  | Except.ok ia =>
    match startValidation ia with
    | Except.error e => (Except.error e, false)
    | Except.ok va =>
      match startTransformation ia va with
      | Except.error e => (Except.error e, false)
      | Except.ok ta =>
        match startTrainer ta with
        | Except.error e => (Except.error e, false)
        | Except.ok tra =>
          match startEvaluation ia tra with
          | Except.error e => (Except.error e, false)
          | Except.ok ea =>
            if ea.is_model_accepted = false then
              (Except.ok (), false)
            else
              match startPusher ea with
              | Except.error e => (Except.error e, true)
              | Except.ok _ => (Except.ok (), true)

end TrainPipeline

/-! ## Concrete fixtures used by witnesses and counterexamples -/

/-- A feature table containing the `Gender` column. -/
def dfWithGender : DF :=
  [("Gender", [Cell.str "Male", Cell.str "Female"]),
   ("Vehicle_Damage", [Cell.str "Yes", Cell.str "No"]),
   ("Age", [Cell.int 30, Cell.int 40])]

/-- A DataFrame with a column but no rows: `df.empty` holds. -/
def dfEmptyRows : DF := [("Gender", [])]

/-- A deployed bundle with trivial collaborators. -/
def mTrivial : Estimator.MyModel := ⟨fun _ => [], fun _ => []⟩

def evalTestDF : DF := [("Gender", [Cell.str "Male"]), ("Response", [Cell.int 1])]

def evalFs : FileSys :=
  fun p => if p = "artifact/test.csv" then some evalTestDF else none

def mtaFixture : ModelTrainerArtifact := ⟨"artifact/model.pkl", ⟨1/2, 1/2, 1/2⟩⟩

def vaFailFixture : DataValidationArtifact :=
  ⟨false, "Training dataset has incorrect number of columns.", "artifact/report.json"⟩

def emptyFs : FileSys := fun _ => none

def trivialScaler : DF → (DF → List DataTransformation.MatRow) := fun _ _ => []

def trivialResample :
    List DataTransformation.MatRow → List Cell →
      List DataTransformation.MatRow × List Cell :=
  fun a b => (a, b)

def train1 : List (List ℚ × ℚ) := [([0], 1)]

def predictOne : List ℚ → ℚ := fun _ => 1

def cfg101 : ModelTrainer.ModelTrainerConfig := ⟨101/100, "artifact/model.pkl"⟩

def cfg0 : ModelTrainer.ModelTrainerConfig := ⟨0, "artifact/model.pkl"⟩

def schemaFixture : SchemaConfig := ⟨["Gender", "Age", "Response"], ["Age"], ["Gender"]⟩

def vTrainDF : DF :=
  [("Gender", [Cell.str "Male"]), ("Age", [Cell.int 30]), ("Response", [Cell.int 1])]

def vTestDF : DF :=
  [("Gender", [Cell.str "Female"]), ("Age", [Cell.int 25])]

def vFs : FileSys :=
  fun p =>
    if p = "train.csv" then some vTrainDF
    else if p = "test.csv" then some vTestDF
    else none

def stubIngestion : Except PErr DataIngestionArtifact :=
  Except.ok ⟨"train.csv", "test.csv"⟩

def stubValidation : DataIngestionArtifact → Except PErr DataValidationArtifact :=
  fun _ => Except.ok ⟨true, "No validation errors found.", "report.json"⟩

def stubTransformation :
    DataIngestionArtifact → DataValidationArtifact →
      Except PErr DataTransformationArtifact :=
  fun _ _ => Except.ok ⟨"pre.pkl", "train.npy", "test.npy"⟩

def stubTrainer : DataTransformationArtifact → Except PErr ModelTrainerArtifact :=
  fun _ => Except.ok mtaFixture

/-- An evaluation stage whose verdict is a rejection. -/
def stubEvaluationReject :
    DataIngestionArtifact → ModelTrainerArtifact →
      Except PErr ModelEvaluationArtifact :=
  fun _ _ => Except.ok ⟨false, "model.pkl", "artifact/model.pkl", -(1/2)⟩

def stubPusher : ModelEvaluationArtifact → Except PErr ModelPusherArtifact :=
  fun _ => Except.ok ⟨"bucket", "model.pkl"⟩

def perm100 : List Nat := (List.range 100).reverse

def rows100 : List Nat := List.range 100

def te100 : List Nat := ((List.range 100).reverse).take 20

def tr100 : List Nat := ((List.range 100).reverse).drop 20

/-! ## Theorems -/

/-- Claim C6, counterexample: on a feature table lacking the `Gender`
column, Evaluation's preprocessing returns the table unchanged while
Transformation's sequence raises a `KeyError`, so the two are not
extensionally equal as the claim states. -/
theorem preprocess_vs_transform_counterexample :
    preprocess_features dfNoGender = Except.ok dfNoGender ∧
    transformFeatureSequence dfNoGender = Except.error PErr.keyError ∧
    preprocess_features dfNoGender ≠ transformFeatureSequence dfNoGender := by
  refine ⟨rfl, rfl, ?_⟩
  intro h
  have h1 : preprocess_features dfNoGender = Except.ok dfNoGender := rfl
  have h2 : transformFeatureSequence dfNoGender = Except.error PErr.keyError := rfl
  rw [h1, h2] at h
  simp at h

/-- Claim C6 (amended): on every feature table that does contain the
`Gender` column, Evaluation's independent preprocessing produces
exactly the same result as Transformation's sequence
`_map_gender_column`, `_drop_id_column`, `_create_dummy_columns`,
`_rename_columns` (with the schema's identifier column modelled as
`"_id"`). -/
theorem preprocess_features_eq_transform_sequence (df : DF)
    (h : hasCol df "Gender" = true) :
    preprocess_features df = transformFeatureSequence df := by
  simp only [preprocess_features, transformFeatureSequence, mapGenderIfPresent, h,
    if_true, schema_drop_columns]

/-- Witness for the amended C6 at a concrete two-row table. -/
theorem preprocess_features_eq_transform_sequence_witness :
    hasCol dfWithGender "Gender" = true ∧
    preprocess_features dfWithGender = transformFeatureSequence dfWithGender :=
  ⟨by decide, preprocess_features_eq_transform_sequence dfWithGender (by decide)⟩

/-- Claim C9, counterexample: when the underlying object-store listing
fails, `ProjEstimator.is_model_present` swallows the wrapped failure
and returns `False`, and `get_best_model` reports "no incumbent" — the
run is not aborted, contradicting the claim that every object-store
failure is re-raised. -/
theorem s3_failure_not_fatal_counterexample :
    S3Estimator.is_model_present (Except.error "Could not connect to the endpoint URL")
      = Except.ok false ∧
    S3Estimator.get_best_model (Except.error "Could not connect to the endpoint URL")
      = Except.ok none :=
  ⟨rfl, rfl⟩

/-- Claim C9 (amended): the storage wrapper wraps and re-raises every
lower-level failure (`s3_key_path_available`, `save_model`), but the
incumbent-existence check `is_model_present` catches the wrapped
failure and converts it to `False`, so `get_best_model` treats a
storage failure as "no incumbent" and the run continues. -/
theorem s3_failure_handling (msg : String) :
    S3Estimator.s3_key_path_available (Except.error msg)
      = Except.error (PErr.custom msg) ∧
    S3Estimator.save_model (Except.error msg)
      = Except.error (PErr.custom ("Error saving model to S3: " ++ msg)) ∧
    S3Estimator.is_model_present (Except.error msg) = Except.ok false ∧
    S3Estimator.get_best_model (Except.error msg) = Except.ok none :=
  ⟨rfl, rfl, rfl, rfl⟩

/-- Claim C10: predicting on an empty input frame raises — both from
`MyModel.predict` and through `ProjEstimator.predict` — before any
preprocessing is applied (the effect trace is empty). -/
theorem predict_empty_raises (m : Estimator.MyModel) (df : DF)
    (h : Estimator.df_empty df = true) :
    Estimator.MyModel.predict m df
      = (Except.error (PErr.custom "Input DataFrame is empty. Prediction aborted."), []) ∧
    Estimator.ProjEstimator.predict (Except.ok m) df
      = (Except.error (PErr.custom "Error during prediction"), []) := by
  constructor
  · simp [Estimator.MyModel.predict, h]
  · simp [Estimator.ProjEstimator.predict, Estimator.MyModel.predict, h]

/-- Witness for C10 at a concrete zero-row frame and trivial bundle. -/
theorem predict_empty_raises_witness :
    Estimator.df_empty dfEmptyRows = true ∧
    Estimator.MyModel.predict mTrivial dfEmptyRows
      = (Except.error (PErr.custom "Input DataFrame is empty. Prediction aborted."), []) ∧
    Estimator.ProjEstimator.predict (Except.ok mTrivial) dfEmptyRows
      = (Except.error (PErr.custom "Error during prediction"), []) :=
  ⟨rfl, (predict_empty_raises mTrivial dfEmptyRows rfl).1,
   (predict_empty_raises mTrivial dfEmptyRows rfl).2⟩

/-- Claim C3: with a failed validation verdict, Transformation raises
immediately with the verdict's message as the reason and performs no
effect at all — no read, no transformer or matrix output. -/
theorem transformation_fails_fast (va : DataValidationArtifact) (fs : FileSys)
    (trainPath testPath targetCol objectPath trainOutPath testOutPath : String)
    (fitScaler : DF → (DF → List DataTransformation.MatRow))
    (resample : List DataTransformation.MatRow → List Cell →
      List DataTransformation.MatRow × List Cell)
    (h : va.validation_status = false) :
    DataTransformation.initiate_data_transformation va fs trainPath testPath
        targetCol objectPath trainOutPath testOutPath fitScaler resample
      = (Except.error (PErr.custom va.message), []) := by
  simp [DataTransformation.initiate_data_transformation, h]

/-- Witness for C3 at a concrete failed verdict. -/
theorem transformation_fails_fast_witness :
    vaFailFixture.validation_status = false ∧
    DataTransformation.initiate_data_transformation vaFailFixture emptyFs
        "train.csv" "test.csv" "Response" "pre.pkl" "train.npy" "test.npy"
        trivialScaler trivialResample
      = (Except.error (PErr.custom vaFailFixture.message), []) :=
  ⟨rfl, transformation_fails_fast vaFailFixture emptyFs "train.csv" "test.csv"
    "Response" "pre.pkl" "train.npy" "test.npy" trivialScaler trivialResample rfl⟩

/-- Claim C2: when the evaluation artifact is not accepted the
orchestrator returns normally and the pusher is never invoked, and the
pusher is invoked only in runs whose evaluation artifact was
accepted. -/
theorem run_pipeline_promotion_gate
    (startIngestion : Except PErr DataIngestionArtifact)
    (startValidation : DataIngestionArtifact → Except PErr DataValidationArtifact)
    (startTransformation : DataIngestionArtifact → DataValidationArtifact →
      Except PErr DataTransformationArtifact)
    (startTrainer : DataTransformationArtifact → Except PErr ModelTrainerArtifact)
    (startEvaluation : DataIngestionArtifact → ModelTrainerArtifact →
      Except PErr ModelEvaluationArtifact)
    (startPusher : ModelEvaluationArtifact → Except PErr ModelPusherArtifact) :
    (∀ ia va ta tra ea,
        startIngestion = Except.ok ia →
        startValidation ia = Except.ok va →
        startTransformation ia va = Except.ok ta →
        startTrainer ta = Except.ok tra →
        startEvaluation ia tra = Except.ok ea →
        ea.is_model_accepted = false →
        TrainPipeline.run_pipeline startIngestion startValidation
            startTransformation startTrainer startEvaluation startPusher
          = (Except.ok (), false)) ∧
    ((TrainPipeline.run_pipeline startIngestion startValidation
        startTransformation startTrainer startEvaluation startPusher).2 = true →
      ∃ ia tra ea, startEvaluation ia tra = Except.ok ea ∧
        ea.is_model_accepted = true) := by
  constructor
  · intro ia va ta tra ea h1 h2 h3 h4 h5 h6
    simp [TrainPipeline.run_pipeline, h1, h2, h3, h4, h5, h6]
  · intro h
    unfold TrainPipeline.run_pipeline at h
    cases hI : startIngestion with
    | error e => rw [hI] at h; simp at h
    | ok ia =>
      rw [hI] at h; dsimp only at h
      cases hV : startValidation ia with
      | error e => rw [hV] at h; simp at h
      | ok va =>
        rw [hV] at h; dsimp only at h
        cases hT : startTransformation ia va with
        | error e => rw [hT] at h; simp at h
        | ok ta =>
          rw [hT] at h; dsimp only at h
          cases hR : startTrainer ta with
          | error e => rw [hR] at h; simp at h
          | ok tra =>
            rw [hR] at h; dsimp only at h
            cases hE : startEvaluation ia tra with
            | error e => rw [hE] at h; simp at h
            | ok ea =>
              rw [hE] at h; dsimp only at h
              by_cases hA : ea.is_model_accepted = false
              · rw [if_pos hA] at h; simp at h
              · exact ⟨ia, tra, ea, hE, eq_true_of_ne_false hA⟩

/-- Witness for C2: with a rejecting evaluation stage the pipeline
finishes normally without invoking the pusher. -/
theorem run_pipeline_promotion_gate_witness :
    TrainPipeline.run_pipeline stubIngestion stubValidation stubTransformation
        stubTrainer stubEvaluationReject stubPusher
      = (Except.ok (), false) :=
  (run_pipeline_promotion_gate stubIngestion stubValidation stubTransformation
      stubTrainer stubEvaluationReject stubPusher).1
    ⟨"train.csv", "test.csv"⟩
    ⟨true, "No validation errors found.", "report.json"⟩
    ⟨"pre.pkl", "train.npy", "test.npy"⟩
    mtaFixture
    ⟨false, "model.pkl", "artifact/model.pkl", -(1/2)⟩
    rfl rfl rfl rfl rfl rfl

/-- The column-count check succeeds exactly when the table has the
declared number of columns. -/
theorem validate_number_iff (s : SchemaConfig) (df : DF) :
    DataValidation.validate_number_of_columns s df = true ↔
      df.length = s.columns.length := by
  unfold DataValidation.validate_number_of_columns
  rw [beq_iff_eq]
  exact eq_comm

/-- The existence check succeeds exactly when every required numerical
and categorical column is present. -/
theorem validate_existence_iff (s : SchemaConfig) (df : DF) :
    DataValidation.validate_column_existence s df = true ↔
      ((∀ c ∈ s.numerical_columns, hasCol df c = true) ∧
       (∀ c ∈ s.categorical_columns, hasCol df c = true)) := by
  simp [DataValidation.validate_column_existence, List.isEmpty_iff,
    List.filter_eq_nil_iff]

/-- A partition contributes no error message exactly when both its
checks pass. -/
theorem partitionErrors_eq_nil_iff (s : SchemaConfig) (label : String) (df : DF) :
    DataValidation.partitionErrors s label df = [] ↔
      (DataValidation.validate_number_of_columns s df = true ∧
       DataValidation.validate_column_existence s df = true) := by
  cases h1 : DataValidation.validate_number_of_columns s df <;>
    cases h2 : DataValidation.validate_column_existence s df <;>
      simp [DataValidation.partitionErrors, h1, h2]

/-- Each of the four possible messages occurs in the accumulated list
exactly when its check failed. -/
theorem mem_partitionErrors_append (s : SchemaConfig) (tdf edf : DF) :
    (("Training dataset has incorrect number of columns." ∈
        DataValidation.partitionErrors s "Training" tdf ++
        DataValidation.partitionErrors s "Testing" edf) ↔
      DataValidation.validate_number_of_columns s tdf = false) ∧
    (("Training dataset is missing required columns." ∈
        DataValidation.partitionErrors s "Training" tdf ++
        DataValidation.partitionErrors s "Testing" edf) ↔
      DataValidation.validate_column_existence s tdf = false) ∧
    (("Testing dataset has incorrect number of columns." ∈
        DataValidation.partitionErrors s "Training" tdf ++
        DataValidation.partitionErrors s "Testing" edf) ↔
      DataValidation.validate_number_of_columns s edf = false) ∧
    (("Testing dataset is missing required columns." ∈
        DataValidation.partitionErrors s "Training" tdf ++
        DataValidation.partitionErrors s "Testing" edf) ↔
      DataValidation.validate_column_existence s edf = false) := by
  cases h1 : DataValidation.validate_number_of_columns s tdf <;>
    cases h2 : DataValidation.validate_column_existence s tdf <;>
      cases h3 : DataValidation.validate_number_of_columns s edf <;>
        cases h4 : DataValidation.validate_column_existence s edf <;>
          simp [DataValidation.partitionErrors, h1, h2, h3, h4]

/-- Claim C4: the verdict is `true` iff both partitions have exactly
the declared column count and every required numerical and categorical
column, and otherwise the message is the space-joined list of the
accumulated violations, each present exactly when its check failed. -/
theorem validation_status_iff (s : SchemaConfig) (fs : FileSys)
    (trainPath testPath reportPath : String) (tdf edf : DF)
    (ht : fs trainPath = some tdf) (he : fs testPath = some edf) :
    ∃ a, (DataValidation.initiate_data_validation s fs trainPath testPath reportPath).1
        = Except.ok a ∧
      (a.validation_status = true ↔
        (tdf.length = s.columns.length ∧
         (∀ c ∈ s.numerical_columns, hasCol tdf c = true) ∧
         (∀ c ∈ s.categorical_columns, hasCol tdf c = true) ∧
         edf.length = s.columns.length ∧
         (∀ c ∈ s.numerical_columns, hasCol edf c = true) ∧
         (∀ c ∈ s.categorical_columns, hasCol edf c = true))) ∧
      (a.validation_status = false →
        a.message = String.intercalate " "
          (DataValidation.partitionErrors s "Training" tdf ++
           DataValidation.partitionErrors s "Testing" edf)) ∧
      (a.validation_status = true → a.message = "No validation errors found.") ∧
      (("Training dataset has incorrect number of columns." ∈
          DataValidation.partitionErrors s "Training" tdf ++
          DataValidation.partitionErrors s "Testing" edf) ↔
        ¬ tdf.length = s.columns.length) ∧
      (("Training dataset is missing required columns." ∈
          DataValidation.partitionErrors s "Training" tdf ++
          DataValidation.partitionErrors s "Testing" edf) ↔
        ¬ ((∀ c ∈ s.numerical_columns, hasCol tdf c = true) ∧
           (∀ c ∈ s.categorical_columns, hasCol tdf c = true))) ∧
      (("Testing dataset has incorrect number of columns." ∈
          DataValidation.partitionErrors s "Training" tdf ++
          DataValidation.partitionErrors s "Testing" edf) ↔
        ¬ edf.length = s.columns.length) ∧
      (("Testing dataset is missing required columns." ∈
          DataValidation.partitionErrors s "Training" tdf ++
          DataValidation.partitionErrors s "Testing" edf) ↔
        ¬ ((∀ c ∈ s.numerical_columns, hasCol edf c = true) ∧
           (∀ c ∈ s.categorical_columns, hasCol edf c = true))) := by
  have hm := mem_partitionErrors_append s tdf edf
  unfold DataValidation.initiate_data_validation
  rw [ht]; dsimp only
  rw [he]; dsimp only
  refine ⟨_, rfl, ?_, ?_, ?_, ?_, ?_, ?_, ?_⟩
  · dsimp only
    rw [List.isEmpty_iff, List.append_eq_nil,
      partitionErrors_eq_nil_iff, partitionErrors_eq_nil_iff,
      validate_number_iff, validate_existence_iff,
      validate_number_iff, validate_existence_iff]
    tauto
  · dsimp only
    intro hf
    rw [hf]
    simp
  · dsimp only
    intro hts
    rw [hts]
    simp
  · rw [hm.1, ← validate_number_iff]
    exact Bool.eq_false_iff
  · rw [hm.2.1, ← validate_existence_iff]
    exact Bool.eq_false_iff
  · rw [hm.2.2.1, ← validate_number_iff]
    exact Bool.eq_false_iff
  · rw [hm.2.2.2, ← validate_existence_iff]
    exact Bool.eq_false_iff

/-- Witness for C4: a valid train table and a test table with a
missing column. -/
theorem validation_status_iff_witness :
    vFs "train.csv" = some vTrainDF ∧ vFs "test.csv" = some vTestDF ∧
    ∃ a, (DataValidation.initiate_data_validation schemaFixture vFs
          "train.csv" "test.csv" "report.json").1 = Except.ok a ∧
      (a.validation_status = true ↔
        (vTrainDF.length = schemaFixture.columns.length ∧
         (∀ c ∈ schemaFixture.numerical_columns, hasCol vTrainDF c = true) ∧
         (∀ c ∈ schemaFixture.categorical_columns, hasCol vTrainDF c = true) ∧
         vTestDF.length = schemaFixture.columns.length ∧
         (∀ c ∈ schemaFixture.numerical_columns, hasCol vTestDF c = true) ∧
         (∀ c ∈ schemaFixture.categorical_columns, hasCol vTestDF c = true))) := by
  have h := validation_status_iff schemaFixture vFs "train.csv" "test.csv"
    "report.json" vTrainDF vTestDF rfl rfl
  obtain ⟨a, ha, hiff, _⟩ := h
  exact ⟨rfl, rfl, a, ha, hiff⟩

/-- Claim C8: when both partition files are readable the stage returns
its verdict as a value — whatever the checks say — and still writes the
report; its result is an error only when a partition file is
unreadable. -/
theorem validation_never_raises (s : SchemaConfig) (fs : FileSys)
    (trainPath testPath reportPath : String) :
    (∀ tdf edf, fs trainPath = some tdf → fs testPath = some edf →
      ∃ a, (DataValidation.initiate_data_validation s fs trainPath testPath
            reportPath).1 = Except.ok a ∧
        Effect.wroteReport reportPath a.validation_status a.message ∈
          (DataValidation.initiate_data_validation s fs trainPath testPath
            reportPath).2) ∧
    (∀ e, (DataValidation.initiate_data_validation s fs trainPath testPath
        reportPath).1 = Except.error e →
      fs trainPath = none ∨ fs testPath = none) := by
  unfold DataValidation.initiate_data_validation
  constructor
  · intro tdf edf ht he
    rw [ht]; dsimp only
    rw [he]; dsimp only
    exact ⟨_, rfl, by simp⟩
  · intro e he
    cases ht : fs trainPath with
    | none => exact Or.inl rfl
    | some tdf =>
      cases hte : fs testPath with
      | none => exact Or.inr rfl
      | some edf =>
        rw [ht] at he; dsimp only at he
        rw [hte] at he; dsimp only at he
        simp at he

/-- Witness for C8 on the concrete fixture filesystem: the failing
checks still yield an `ok` verdict and a written report. -/
theorem validation_never_raises_witness :
    vFs "train.csv" = some vTrainDF ∧ vFs "test.csv" = some vTestDF ∧
    ∃ a, (DataValidation.initiate_data_validation schemaFixture vFs
          "train.csv" "test.csv" "report.json").1 = Except.ok a ∧
      Effect.wroteReport "report.json" a.validation_status a.message ∈
        (DataValidation.initiate_data_validation schemaFixture vFs
          "train.csv" "test.csv" "report.json").2 :=
  ⟨rfl, rfl,
   (validation_never_raises schemaFixture vFs "train.csv" "test.csv"
     "report.json").1 vTrainDF vTestDF rfl rfl⟩

/-- An accuracy score is nonnegative. -/
theorem accuracy_score_nonneg (y ypred : List ℚ) :
    0 ≤ ModelTrainer.accuracy_score y ypred := by
  unfold ModelTrainer.accuracy_score
  exact div_nonneg (Nat.cast_nonneg _) (Nat.cast_nonneg _)

/-- An accuracy score never exceeds 1: the matching pairs are a
sublist of the zipped labels. -/
theorem accuracy_score_le_one (y ypred : List ℚ) :
    ModelTrainer.accuracy_score y ypred ≤ 1 := by
  unfold ModelTrainer.accuracy_score
  apply div_le_one_of_le₀ _ (Nat.cast_nonneg _)
  have hcount : (((y.zip ypred).filter (fun p => p.1 == p.2)).length) ≤ y.length := by
    calc ((y.zip ypred).filter (fun p => p.1 == p.2)).length
        ≤ (y.zip ypred).length := List.length_filter_le _ _
      _ ≤ y.length := by rw [List.length_zip]; exact Nat.min_le_left _ _
  exact_mod_cast hcount

/-- Claim C5: Training raises (and produces no artifact) exactly when
the accuracy recomputed on the train matrix is strictly below the
configured floor; a floor of 1.01 always rejects and a floor of 0.0
never rejects. -/
theorem model_trainer_gate (train test : List (List ℚ × ℚ))
    (predictFn : List ℚ → ℚ) (cfg : ModelTrainer.ModelTrainerConfig) :
    ((∃ e, ModelTrainer.initiate_model_trainer train test predictFn cfg
        = Except.error e) ↔
      ModelTrainer.trainAccuracy predictFn train < cfg.expected_accuracy) ∧
    (cfg.expected_accuracy = 101 / 100 →
      ∃ e, ModelTrainer.initiate_model_trainer train test predictFn cfg
        = Except.error e) ∧
    (cfg.expected_accuracy = 0 →
      ModelTrainer.initiate_model_trainer train test predictFn cfg
        = Except.ok ⟨cfg.trained_model_file_path,
            ModelTrainer.get_metric_artifact predictFn test⟩) := by
  have h0 : 0 ≤ ModelTrainer.trainAccuracy predictFn train :=
    accuracy_score_nonneg _ _
  have h1 : ModelTrainer.trainAccuracy predictFn train ≤ 1 :=
    accuracy_score_le_one _ _
  simp only [ModelTrainer.initiate_model_trainer]
  by_cases hlt : ModelTrainer.trainAccuracy predictFn train < cfg.expected_accuracy
  · rw [if_pos hlt]
    refine ⟨⟨fun _ => hlt, fun _ => ⟨_, rfl⟩⟩, fun _ => ⟨_, rfl⟩, ?_⟩
    intro hz
    exfalso
    rw [hz] at hlt
    exact absurd hlt (not_lt.mpr h0)
  · rw [if_neg hlt]
    refine ⟨⟨?_, fun h => absurd h hlt⟩, ?_, fun _ => rfl⟩
    · rintro ⟨e, he⟩
      simp at he
    · intro h101
      exfalso
      apply hlt
      rw [h101]
      calc ModelTrainer.trainAccuracy predictFn train ≤ 1 := h1
        _ < 101 / 100 := by norm_num

/-- Witness for C5: a one-row train matrix on which the fitted model is
exact (train accuracy 1); the 1.01 floor rejects, the 0.0 floor
accepts. -/
theorem model_trainer_gate_witness :
    (∃ e, ModelTrainer.initiate_model_trainer train1 [] predictOne cfg101
      = Except.error e) ∧
    ModelTrainer.initiate_model_trainer train1 [] predictOne cfg0
      = Except.ok ⟨cfg0.trained_model_file_path,
          ModelTrainer.get_metric_artifact predictOne []⟩ :=
  ⟨(model_trainer_gate train1 [] predictOne cfg101).2.1 rfl,
   (model_trainer_gate train1 [] predictOne cfg0).2.2 rfl⟩

/-- Looking every index of a list up in order recovers the list. -/
theorem filterMap_get_range {α : Type} (l : List α) :
    (List.range l.length).filterMap (fun i => l.get? i) = l := by
  induction l with
  | nil => rfl
  | cons a t ih =>
    rw [List.length_cons, List.range_succ_eq_map, List.filterMap_cons]
    simp only [List.get?_cons_zero, List.filterMap_map]
    exact congrArg (List.cons a) ih

/-- Claim C7: whenever the split succeeds, the partition row counts
sum to the input count, the test partition takes exactly
`ceil(ratio * n)` rows, the two partitions together are a permutation
of the input rows, and on duplicate-free inputs no row lands in both
partitions.  The seed-determined shuffle is the permutation `perm`, so
a fixed seed and ratio reproduce the split exactly. -/
theorem split_partition {α : Type} (perm : List Nat) (rows : List α) (ratio : ℚ)
    (tr te : List α)
    (hperm : perm.Perm (List.range rows.length))
    (hok : DataIngestion.train_test_split perm rows ratio = Except.ok (tr, te)) :
    tr.length + te.length = rows.length ∧
    te.length = Nat.ceil (ratio * (rows.length : ℚ)) ∧
    tr.length = rows.length - Nat.ceil (ratio * (rows.length : ℚ)) ∧
    (te ++ tr).Perm rows ∧
    (rows.Nodup → ∀ x ∈ tr, x ∉ te) := by
  unfold DataIngestion.train_test_split at hok
  by_cases hr : 0 < ratio ∧ ratio < 1
  case neg => rw [if_neg hr] at hok; exact absurd hok (by simp)
  rw [if_pos hr] at hok
  dsimp only at hok
  by_cases hz : rows.length - Nat.ceil (ratio * (rows.length : ℚ)) = 0 ∨
      Nat.ceil (ratio * (rows.length : ℚ)) = 0
  · rw [if_pos hz] at hok; exact absurd hok (by simp)
  · rw [if_neg hz] at hok
    have hpair := Except.ok.inj hok
    have htr : tr = (perm.filterMap (fun i => rows.get? i)).drop
        (Nat.ceil (ratio * (rows.length : ℚ))) :=
      (congrArg Prod.fst hpair).symm
    have hte : te = (perm.filterMap (fun i => rows.get? i)).take
        (Nat.ceil (ratio * (rows.length : ℚ))) :=
      (congrArg Prod.snd hpair).symm
    have hshuf : (perm.filterMap (fun i => rows.get? i)).Perm rows := by
      have h1 := hperm.filterMap (fun i => rows.get? i)
      rw [filterMap_get_range] at h1
      exact h1
    have hlen : (perm.filterMap (fun i => rows.get? i)).length = rows.length :=
      hshuf.length_eq
    have hle : Nat.ceil (ratio * (rows.length : ℚ)) ≤ rows.length := by
      apply Nat.ceil_le.mpr
      calc ratio * (rows.length : ℚ)
          ≤ 1 * (rows.length : ℚ) :=
            mul_le_mul_of_nonneg_right (le_of_lt hr.2) (Nat.cast_nonneg _)
        _ = (rows.length : ℚ) := one_mul _
    have hteLen : te.length = Nat.ceil (ratio * (rows.length : ℚ)) := by
      rw [hte, List.length_take, hlen]
      exact Nat.min_le_left _ _ |>.antisymm (le_min (le_refl _) hle) |>.symm ▸
        min_eq_left hle
    have htrLen : tr.length
        = rows.length - Nat.ceil (ratio * (rows.length : ℚ)) := by
      rw [htr, List.length_drop, hlen]
    have happ : (te ++ tr).Perm rows := by
      rw [hte, htr, List.take_append_drop]
      exact hshuf
    refine ⟨?_, hteLen, htrLen, happ, ?_⟩
    · rw [hteLen, htrLen]
      exact Nat.sub_add_cancel hle
    · intro hnd x hxtr hxte
      have hnodup : (te ++ tr).Nodup := (happ.nodup_iff).mpr hnd
      exact (List.nodup_append.mp hnodup).2.2 hxte hxtr

/-- The concrete 100-row split at ratio 1/5 with the reversed-range
shuffle: 20 test rows, 80 train rows. -/
theorem split100_eq :
    DataIngestion.train_test_split perm100 rows100 (1/5)
      = Except.ok (tr100, te100) := by
  unfold DataIngestion.train_test_split
  rw [if_pos (by norm_num : (0 : ℚ) < 1/5 ∧ (1/5 : ℚ) < 1)]
  dsimp only
  have hc : Nat.ceil ((1/5 : ℚ) * (rows100.length : ℚ)) = 20 := by
    have h100 : rows100.length = 100 := by simp [rows100]
    rw [h100]
    norm_num
  rw [hc]
  rw [if_neg (by decide : ¬(rows100.length - 20 = 0 ∨ 20 = 0))]
  rfl

/-- Witness for C7 at the spec's own example: 100 rows, ratio 0.2,
yielding 20 test rows and 80 train rows. -/
theorem split_partition_witness :
    (tr100.length + te100.length = rows100.length ∧
     te100.length = Nat.ceil ((1/5 : ℚ) * (rows100.length : ℚ)) ∧
     tr100.length = rows100.length - Nat.ceil ((1/5 : ℚ) * (rows100.length : ℚ)) ∧
     (te100 ++ tr100).Perm rows100 ∧
     (rows100.Nodup → ∀ x ∈ tr100, x ∉ te100)) ∧
    te100.length = 20 ∧ tr100.length = 80 :=
  ⟨split_partition perm100 rows100 (1/5) tr100 te100
      (by
        have h : rows100.length = 100 := by simp [rows100]
        rw [h]
        exact List.reverse_perm (List.range 100)) split100_eq,
   by decide, by decide⟩

/-- Claim C1: the promotion decision.  With no incumbent, `accepted`
is `candidateF1 > 0` and `delta = candidateF1`; with an incumbent,
`accepted` is `candidateF1 > incumbentF1` and
`delta = candidateF1 - incumbentF1` exactly, where the incumbent's F1
is computed on the preprocessed test features and the candidate F1 is
the trainer artifact's, not recomputed. -/
theorem evaluate_model_decision (fs : FileSys) (testPath targetCol : String)
    (mta : ModelTrainerArtifact) (best : Option (DF → List Int))
    (tdf : DF) (ycells : List Cell) (y : List Int) (Xp : DF)
    (hfs : fs testPath = some tdf)
    (hy : getCol tdf targetCol = some ycells)
    (hyi : ycells.mapM ModelEvaluation.cellInt = Except.ok y)
    (hX : preprocess_features (dropColIfPresent targetCol tdf) = Except.ok Xp) :
    ∃ r, ModelEvaluation.evaluate_model fs testPath targetCol mta best
        = Except.ok r ∧
      r.trained_model_f1_score = mta.metric_artifact.f1_score ∧
      (best = none →
        (r.is_model_accepted = true ↔ mta.metric_artifact.f1_score > 0) ∧
        r.difference = mta.metric_artifact.f1_score) ∧
      (∀ pf, best = some pf →
        (r.is_model_accepted = true ↔
          mta.metric_artifact.f1_score > ModelEvaluation.f1_score y (pf Xp)) ∧
        r.difference
          = mta.metric_artifact.f1_score - ModelEvaluation.f1_score y (pf Xp)) := by
  unfold ModelEvaluation.evaluate_model
  rw [hfs]; dsimp only
  rw [hy]; dsimp only
  rw [hyi]; dsimp only
  rw [hX]; dsimp only
  refine ⟨_, rfl, rfl, ?_, ?_⟩
  · rintro rfl
    simp [ModelEvaluation.pyOrZero]
  · rintro pf rfl
    dsimp only [Option.map, ModelEvaluation.pyOrZero]
    by_cases hv : ModelEvaluation.f1_score y (pf Xp) = 0
    · rw [if_pos hv, hv]
      simp
    · rw [if_neg hv]
      simp

/-- Witness for C1 at a concrete one-row test file with no incumbent. -/
theorem evaluate_model_decision_witness :
    evalFs "artifact/test.csv" = some evalTestDF ∧
    getCol evalTestDF "Response" = some [Cell.int 1] ∧
    ([Cell.int 1].mapM ModelEvaluation.cellInt = Except.ok [(1 : Int)]) ∧
    preprocess_features (dropColIfPresent "Response" evalTestDF)
      = Except.ok [("Gender", [Cell.int 1])] ∧
    ∃ r, ModelEvaluation.evaluate_model evalFs "artifact/test.csv" "Response"
        mtaFixture none = Except.ok r ∧
      r.trained_model_f1_score = mtaFixture.metric_artifact.f1_score ∧
      (none = (none : Option (DF → List Int)) →
        (r.is_model_accepted = true ↔ mtaFixture.metric_artifact.f1_score > 0) ∧
        r.difference = mtaFixture.metric_artifact.f1_score) ∧
      (∀ pf, (none : Option (DF → List Int)) = some pf →
        (r.is_model_accepted = true ↔
          mtaFixture.metric_artifact.f1_score
            > ModelEvaluation.f1_score [(1 : Int)] (pf [("Gender", [Cell.int 1])])) ∧
        r.difference = mtaFixture.metric_artifact.f1_score
          - ModelEvaluation.f1_score [(1 : Int)] (pf [("Gender", [Cell.int 1])])) :=
  ⟨rfl, rfl, rfl, rfl,
   evaluate_model_decision evalFs "artifact/test.csv" "Response" mtaFixture none
     evalTestDF [Cell.int 1] [(1 : Int)] [("Gender", [Cell.int 1])]
     rfl rfl rfl rfl⟩
